import Mathlib

/-!
Verification of the Genesis smart-contract host layer against its
specification.  The definitions below are a shallow embedding of the Go
sources `packages/smart/smart_p.go` and `packages/utils/tx/smart.go`:
pure Go functions become Lean functions, stateful host functions become
explicit state passing over a `St` record, machine integers (`int64`)
become `Int` with explicit wrap-around where Go overflow semantics
matter, and fallible Go code returns `Except`/`Option`.
-/

/-! ## Machine-integer helpers (Go `int64` semantics) -/

/-- Smallest `int64` value. -/
def int64Min : Int := -(2 ^ 63)

/-- Largest `int64` value. -/
def int64Max : Int := 2 ^ 63 - 1

/-- Two's-complement wrap-around of an integer into the `int64` range,
the defined behaviour of Go signed-integer overflow. -/
def wrap64 (z : Int) : Int := (z + 2 ^ 63) % 2 ^ 64 - 2 ^ 63

/-- All characters are decimal digits and the list is non-empty; the
digits' value.  Helper for `strToInt64`. -/
def parseDigits : List Char → Option Nat
  | [] => none
  | [c] => if c.isDigit then some (c.toNat - 48) else none
  | c :: cs =>
    match parseDigits cs, c.isDigit with
    | some n, true => some ((c.toNat - 48) * 10 ^ cs.length + n)
    | _, _ => none

/-- `converter.StrToInt64` (via Go `strconv.ParseInt(s, 10, 64)`):
optional sign followed by decimal digits; returns 0 on a syntax error
and the clamped bound on a range error, which is what the Go helper
returns after logging the error. -/
def strToInt64 (s : String) : Int :=
  let (neg, ds) :=
    match s.toList with
    | '-' :: r => (true, r)
    | '+' :: r => (false, r)
    | r => (false, r)
  match parseDigits ds with
  | none => 0
  | some n =>
    let v : Int := if neg then -(n : Int) else (n : Int)
    if v < int64Min then int64Min else if v > int64Max then int64Max else v

/-- `converter.Int64ToStr` (Go `strconv.FormatInt(i, 10)`). -/
def int64ToStr (i : Int) : String := toString i

/-- A Go `int64` cast to `uint64`, as a natural number. -/
def toUInt64Nat (i : Int) : Nat := (i % 2 ^ 64).toNat

/-- Value of a hexadecimal digit, accepting both cases
(Go `encoding/hex`). -/
def hexDigit (c : Char) : Option Nat :=
  if '0' ≤ c ∧ c ≤ '9' then some (c.toNat - 48)
  else if 'a' ≤ c ∧ c ≤ 'f' then some (c.toNat - 87)
  else if 'A' ≤ c ∧ c ≤ 'F' then some (c.toNat - 55)
  else none

/-- Decode pairs of hex digits into bytes; fails on an odd-length input
or a non-hex character, exactly when Go `hex.DecodeString` returns a
non-nil error. -/
def hexPairs : List Char → Option (List Nat)
  | [] => some []
  | [_] => none
  | a :: b :: rest =>
    match hexDigit a, hexDigit b, hexPairs rest with
    | some x, some y, some r => some ((x * 16 + y) :: r)
    | _, _, _ => none

/-- Go `hex.DecodeString`: `none` models the error return. -/
def hexDecode (s : String) : Option (List Nat) := hexPairs s.toList

/-- `pat` is a leading segment of `s` (on character lists). -/
def leadsWith : List Char → List Char → Bool
  | [], _ => true
  | _ :: _, [] => false
  | a :: as, b :: bs => a == b && leadsWith as bs

/-- `pat` occurs inside `s` (on character lists). -/
def hasSubList (pat : List Char) : List Char → Bool
  | [] => pat.isEmpty
  | c :: rest => leadsWith pat (c :: rest) || hasSubList pat rest

/-- Go `strings.Contains s pat`. -/
def containsSubstr (s pat : String) : Bool := hasSubList pat.toList s.toList

/-- Go `strings.HasPrefix s pat`. -/
def goHasPre (s pat : String) : Bool := leadsWith pat.toList s.toList

/-- Go `strings.Split s ","` (splitting on a single comma), written
structurally so that concrete instances evaluate by `rfl`. -/
def splitCommaAux : List Char → List Char → List String
  | [], acc => [String.mk acc.reverse]
  | c :: rest, acc =>
    if c == ',' then String.mk acc.reverse :: splitCommaAux rest []
    else splitCommaAux rest (c :: acc)

def splitComma (s : String) : List String := splitCommaAux s.toList []

/-! ## A model of Go `encoding/json` unmarshalling

`UpdateSysParam` and `CheckSignature` call `json.Unmarshal`; the parser
below models the JSON grammar, and the decoding functions model Go's
typed unmarshalling rules (a JSON `null` leaves the target's zero
value; a type mismatch is an error). -/

inductive JVal where
  | jnull
  | jbool (b : Bool)
  | jnum (s : String)
  | jstr (s : String)
  | jarr (xs : List JVal)
  | jobj (fields : List (String × JVal))

/-- An opening brace character, kept out of literals. -/
def lbrace : Char := Char.ofNat 123

/-- A closing brace character, kept out of literals. -/
def rbrace : Char := Char.ofNat 125

def isWsChar (c : Char) : Bool := c == ' ' || c == '\t' || c == '\n' || c == '\r'

def skipWs : List Char → List Char
  | [] => []
  | c :: cs => if isWsChar c then skipWs cs else c :: cs

/-- Translation of a JSON escape character (other than `\u`): the
letter escapes map to their control codes, and quote, backslash and
slash map to themselves. -/
def escChar : Char → Option Char
  | 'n' => some (Char.ofNat 10)
  | 't' => some (Char.ofNat 9)
  | 'r' => some (Char.ofNat 13)
  | 'b' => some (Char.ofNat 8)
  | 'f' => some (Char.ofNat 12)
  | '/' => some '/'
  | '\\' => some '\\'
  | '"' => some '"'
  | _ => none

/-- Body of a JSON string literal, after the opening quote; returns the
decoded characters and the rest of the input. -/
def parseStrBody : Nat → List Char → Option (List Char × List Char)
  | 0, _ => none
  | _, [] => none
  | fuel + 1, c :: cs =>
    if c == '"' then some ([], cs)
    else if c == '\\' then
      match cs with
      | [] => none
      | e :: cs2 =>
        if e == 'u' then
          match cs2 with
          | a :: b :: c3 :: d :: cs3 =>
            match hexDigit a, hexDigit b, hexDigit c3, hexDigit d with
            | some ha, some hb, some hc, some hd =>
              match parseStrBody fuel cs3 with
              | some (r, rest) =>
                some (Char.ofNat (((ha * 16 + hb) * 16 + hc) * 16 + hd) :: r, rest)
              | none => none
            | _, _, _, _ => none
          | _ => none
        else
          match escChar e with
          | some ec =>
            match parseStrBody fuel cs2 with
            | some (r, rest) => some (ec :: r, rest)
            | none => none
          | none => none
    else
      match parseStrBody fuel cs with
      | some (r, rest) => some (c :: r, rest)
      | none => none

/-- Optional fraction part of a JSON number. -/
def parseFracPart : List Char → Option (List Char × List Char)
  | '.' :: r =>
    let ds := r.takeWhile Char.isDigit
    if ds.isEmpty then none else some ('.' :: ds, r.dropWhile Char.isDigit)
  | cs => some ([], cs)

def parseExpDigits (e : Char) (r : List Char) : Option (List Char × List Char) :=
  let (sg, r1) :=
    match r with
    | '+' :: t => (['+'], t)
    | '-' :: t => (['-'], t)
    | t => (([] : List Char), t)
  let ds := r1.takeWhile Char.isDigit
  if ds.isEmpty then none else some (e :: sg ++ ds, r1.dropWhile Char.isDigit)

/-- Optional exponent part of a JSON number. -/
def parseExpPart : List Char → Option (List Char × List Char)
  | 'e' :: r => parseExpDigits 'e' r
  | 'E' :: r => parseExpDigits 'E' r
  | cs => some ([], cs)

/-- A JSON number literal, returned as its source text. -/
def parseNum (cs : List Char) : Option (String × List Char) :=
  let (sign, cs1) :=
    match cs with
    | '-' :: r => (true, r)
    | r => (false, r)
  let intp := cs1.takeWhile Char.isDigit
  let cs2 := cs1.dropWhile Char.isDigit
  if intp.isEmpty then none
  else
    match parseFracPart cs2 with
    | none => none
    | some (f, cs3) =>
      match parseExpPart cs3 with
      | none => none
      | some (e, cs4) =>
        some (String.mk ((if sign then ['-'] else []) ++ intp ++ f ++ e), cs4)

def stripToken (tok : List Char) (cs : List Char) : Option (List Char) :=
  if cs.take tok.length == tok then some (cs.drop tok.length) else none

mutual

/-- A JSON value; `fuel` bounds the nesting (callers supply more fuel
than the input's length, which is always sufficient). -/
def parseJVal : Nat → List Char → Option (JVal × List Char)
  | 0, _ => none
  | fuel + 1, cs0 =>
    match skipWs cs0 with
    | [] => none
    | c :: rest =>
      if c == '"' then
        match parseStrBody (rest.length + 1) rest with
        | some (r, rem) => some (.jstr (String.mk r), rem)
        | none => none
      else if c == '[' then
        match skipWs rest with
        | ']' :: rem => some (.jarr [], rem)
        | rest1 =>
          match parseItems fuel rest1 with
          | some (xs, rem) => some (.jarr xs, rem)
          | none => none
      else if c == lbrace then
        match skipWs rest with
        | d :: rem =>
          if d == rbrace then some (.jobj [], rem)
          else
            match parseFields fuel (d :: rem) with
            | some (fs, rem2) => some (.jobj fs, rem2)
            | none => none
        | [] => none
      else if c == 't' then
        match stripToken ['r', 'u', 'e'] rest with
        | some rem => some (.jbool true, rem)
        | none => none
      else if c == 'f' then
        match stripToken ['a', 'l', 's', 'e'] rest with
        | some rem => some (.jbool false, rem)
        | none => none
      else if c == 'n' then
        match stripToken ['u', 'l', 'l'] rest with
        | some rem => some (.jnull, rem)
        | none => none
      else
        match parseNum (c :: rest) with
        | some (s, rem) => some (.jnum s, rem)
        | none => none

/-- Comma-separated array items up to the closing bracket. -/
def parseItems : Nat → List Char → Option (List JVal × List Char)
  | 0, _ => none
  | fuel + 1, cs =>
    match parseJVal fuel cs with
    | none => none
    | some (v, rem) =>
      match skipWs rem with
      | ',' :: rem2 =>
        match parseItems fuel rem2 with
        | some (vs, rem3) => some (v :: vs, rem3)
        | none => none
      | ']' :: rem2 => some ([v], rem2)
      | _ => none

/-- Comma-separated object fields up to the closing brace. -/
def parseFields : Nat → List Char → Option (List (String × JVal) × List Char)
  | 0, _ => none
  | fuel + 1, cs =>
    match skipWs cs with
    | [] => none
    | c :: rest =>
      if c == '"' then
        match parseStrBody (rest.length + 1) rest with
        | none => none
        | some (k, rem) =>
          match skipWs rem with
          | ':' :: rem2 =>
            match parseJVal fuel rem2 with
            | none => none
            | some (v, rem3) =>
              match skipWs rem3 with
              | ',' :: rem4 =>
                match parseFields fuel rem4 with
                | some (fs, rem5) => some ((String.mk k, v) :: fs, rem5)
                | none => none
              | d :: rem4 =>
                if d == rbrace then some ([(String.mk k, v)], rem4) else none
              | [] => none
          | _ => none
      else none

end

/-- Parse a whole JSON document (Go `json.Unmarshal` rejects trailing
non-whitespace). -/
def jsonParse (s : String) : Option JVal :=
  match parseJVal (2 * s.length + 4) s.toList with
  | some (v, rem) => if (skipWs rem).isEmpty then some v else none
  | none => none

/-- Go unmarshalling of a JSON value into a `string` target. -/
def jAsGoString : JVal → Option String
  | .jstr s => some s
  | .jnull => some ""
  | _ => none

/-- Go unmarshalling of a JSON value into a `[]string` target. -/
def jAsGoStringList : JVal → Option (List String)
  | .jnull => some []
  | .jarr xs => xs.mapM jAsGoString
  | _ => none

/-- Go `json.Unmarshal([]byte(value), &list)` for `list : [][]string`
(the `fuel_rate` / `commission_wallet` branch of `UpdateSysParam`). -/
def unmarshalStrListList (value : String) : Option (List (List String)) :=
  match jsonParse value with
  | some .jnull => some []
  | some (.jarr xs) => xs.mapM jAsGoStringList
  | some _ => none
  | none => none

/-- Modelled from the spec: the `full_nodes` value must unmarshal as a
JSON array of full-node records (`[]syspar.FullNode`); the `FullNode`
type is not under `src/`, so a record is modelled as any JSON object.
Returns the number of nodes on success. -/
def unmarshalFullNodesLen (value : String) : Option Nat :=
  match jsonParse value with
  | some .jnull => some 0
  | some (.jarr xs) =>
    if xs.all (fun v => match v with | .jobj _ => true | _ => false) then some xs.length
    else none
  | _ => none

/-! ## Transaction envelope (`packages/utils/tx/smart.go`) -/

namespace GoTx

/-- Modelled from the spec: the transaction `Header` type is embedded in
`tx.SmartContract` but its declaration is not under `src/`; per the spec
the header carries type, time, key_id and ecosystem_id. -/
structure Header where
  txType : Int
  time : Int
  keyID : Int
  ecosystemID : Int

/-- `tx.SmartContract`, the transaction envelope
(`packages/utils/tx/smart.go`).  `Data` is irrelevant to `ForSign` and
is kept as raw bytes. -/
structure SmartContract where
  header : Header
  requestID : String
  tokenEcosystem : Int
  maxSum : String
  payOver : String
  signedBy : Int
  data : List Nat

/-- `tx.SmartContract.ForSign`:
`fmt.Sprintf("%s,%d,%d,%d,%d,%d,%s,%s,%d", ...)` over RequestID, Type,
Time, KeyID, EcosystemID, TokenEcosystem, MaxSum, PayOver, SignedBy. -/
def ForSign (s : SmartContract) : String :=
  s.requestID ++ "," ++ int64ToStr s.header.txType ++ "," ++ int64ToStr s.header.time ++ "," ++
    int64ToStr s.header.keyID ++ "," ++ int64ToStr s.header.ecosystemID ++ "," ++
    int64ToStr s.tokenEcosystem ++ "," ++ s.maxSum ++ "," ++ s.payOver ++ "," ++
    int64ToStr s.signedBy

/-- The spec's wording of the wire format: the nine fields joined by
commas, in the stated order, with no other separators or fields. -/
def ForSignSpec (s : SmartContract) : String :=
  String.intercalate ","
    [s.requestID, int64ToStr s.header.txType, int64ToStr s.header.time,
     int64ToStr s.header.keyID, int64ToStr s.header.ecosystemID,
     int64ToStr s.tokenEcosystem, s.maxSum, s.payOver, int64ToStr s.signedBy]

end GoTx

/-! ## Host-function layer (`packages/smart/smart_p.go`)

Stateful host functions are embedded as explicit state passing: each
returns `Except SmartErr α × St`.  Reads that go to collaborators whose
code is not under `src/` (DB reads, condition evaluation, access-control
expressions, crypto) are oracles carried by the read-only `Env`; writes
and journal requests are recorded in `St`. -/

/-- The error kinds surfaced by the modelled host functions
(§7 of the spec). -/
inductive SmartErr where
  | incorrectCallingContract (m : String)
  | invalidValue
  | accessDenied
  | notFound (m : String)
  | jsonError (m : String)
  | evalError
  | emptyObject
  | founderAccount
  | otherErr (m : String)
deriving Repr, DecidableEq

/-- Observable side effects of a host call.  `selUpd` records a
`selectiveLoggingAndUpd` request together with its `logRollback`
argument; `sysRollback` records a `SysRollback` journal request. -/
inductive Event where
  | selUpd (table : String) (logRollback : Bool)
  | sysRollback (data : String)
  | execSchema (id : Int)
  | loadContract (idStr : String)
  | activateContract (tblid state : Int) (active : Bool)
  | updateLang
  | decodeSig (hexsign : String)
  | checkSign (forsign : String)
deriving Repr, DecidableEq

/-- One row of `1_system_parameters` (`model.SystemParameter`). -/
structure SysParamRow where
  id : Int
  value : String
  conditions : String
deriving Repr, DecidableEq

/-- The mutable part of a `SmartContract` call context plus the DB
transaction: the flags the Go code flips, the system-parameter cache,
the issued writes and the event trace. -/
structure St where
  rollback : Bool
  fullAccess : Bool
  sysUpdate : Bool
  sysParams : List (String × SysParamRow)
  writes : List (String × List String)
  events : List Event
deriving Repr, DecidableEq

/-- The read-only part of the call context: transaction data and
oracles for the collaborators outside `src/`.  `evalIf` returns `none`
on an evaluation error; `checkSignOracle` returns `none` on a crypto
error. -/
structure Env where
  txContractName : String
  ecosystemID : Int
  vde : Bool
  evalIf : String → Option Bool
  compileEvalOk : String → Bool
  accessTableOk : String → String → Bool
  accessColumnsOk : String → List String → Bool
  signaturesValue : String → String → Option String
  founderAccount : Option String
  keysPub : Int → Option String
  nextEcosystemID : Int
  checkSignOracle : String → List Nat → Option Bool

/-- Update the row stored under key `k`. -/
def updateLookup (l : List (String × SysParamRow)) (k : String) (v : SysParamRow) :
    List (String × SysParamRow) :=
  l.map (fun p => if p.1 == k then (p.1, v) else p)

/-- Modelled from the spec:
`selectiveLoggingAndUpd(cols, vals, table, whereCols, whereVals,
logRollback, mustExist)` of the State-Access Layer is not under `src/`;
per §4.5 it upserts/updates and returns `(qcost, rowID, err)`, and when
`logRollback` is true it appends a rollback record.  The model records
the write and the request (with its `logRollback` argument) and
succeeds. -/
def selectiveLoggingAndUpd (st : St) (cols : List String) (_vals : List String)
    (table : String) (_whereCols _whereVals : List String) (logRollback _mustExist : Bool) :
    Except SmartErr (Int × Int) × St :=
  (.ok (0, 1),
   { st with
     writes := st.writes ++ [(table, cols)],
     events := st.events ++ [.selUpd table logRollback] })

/-- Modelled from the spec: `SysRollback` is not under `src/`; per §4.7
it records an ecosystem-level inverse hint in the rollback journal. -/
def SysRollback (st : St) (data : String) : Except SmartErr Unit × St :=
  (.ok (), { st with events := st.events ++ [.sysRollback data] })

/-- Modelled from the spec: `getDefTableName` is not under `src/`; per
§4.5 it prefixes bare names with the caller's ecosystem ID unless they
start with `@N_`, in which case `N` is the ecosystem prefix. -/
def getDefTableName (ecosystemID : Int) (tblname : String) : String :=
  if goHasPre tblname "@" then String.mk (tblname.toList.drop 1)
  else int64ToStr ecosystemID ++ "_" ++ tblname

/-- Modelled from the spec: `accessContracts` is not under `src/`; per
the spec's gating invariants it holds exactly when the current
transaction's contract is `@1<n>` for one of the allowed names `n`. -/
def accessContracts (env : Env) (names : List String) : Bool :=
  names.any (fun n => env.txContractName == "@1" ++ n)

/-- Modelled from the spec: `DBInsert` is not under `src/`; per §4.4/§4.5
it resolves the table name, checks insert access (`FullAccess`
bypasses the ACL) and routes the write through the State-Access Layer
with `logRollback = !VDE && Rollback`. -/
def DBInsert (env : Env) (st : St) (tblname params : String) (vals : List String) :
    Except SmartErr (Int × Int) × St :=
  let tbl := getDefTableName env.ecosystemID tblname
  if !(st.fullAccess || env.accessTableOk tbl "insert") then (.error .accessDenied, st)
  else selectiveLoggingAndUpd st (splitComma params) vals tbl [] [] (!env.vde && st.rollback) false

/-- `syspar.SysString`: the raw value of a system parameter, `""` when
absent. -/
def SysParamString (st : St) (name : String) : String :=
  ((st.sysParams.lookup name).map SysParamRow.value).getD ""

/-- The names validated as integers in `(0, 1000)` by `UpdateSysParam`. -/
def intParams1000 : List String := ["rb_blocks_1", "number_of_nodes"]

/-- The price-style names validated as non-negative integers. -/
def priceParams : List String :=
  ["ecosystem_price", "contract_price", "column_price", "table_price", "menu_price",
   "page_price", "commission_size"]

/-- The limit-style names validated as positive integers. -/
def maxParams : List String :=
  ["max_block_size", "max_tx_size", "max_tx_count", "max_columns", "max_indexes",
   "max_block_user_tx", "max_fuel_tx", "max_fuel_block", "max_forsign_size"]

/-- The per-item test of the `fuel_rate` / `commission_wallet` loop in
`UpdateSysParam`: `true` when the item makes the code `break check`
(length not 2, non-positive first element, or a bad second element). -/
def fuelItemBad (name : String) (item : List String) : Bool :=
  item.length != 2 || strToInt64 (item.headD "") ≤ 0 ||
    (name == "fuel_rate" && strToInt64 ((item.drop 1).headD "") ≤ 0) ||
    (name == "commission_wallet" && strToInt64 ((item.drop 1).headD "") == 0)

/-- The `!checked && (!ok || Int64ToStr(ival) != value)` rejection of
the integer-validated branches of `UpdateSysParam`. -/
def checkIntRange (ok : Bool) (ival : Int) (value : String) : Except SmartErr Unit :=
  if !ok || int64ToStr ival != value then .error .invalidValue else .ok ()

/-- The `switch name` value validation of `UpdateSysParam`
(`smart_p.go` lines 146-197), returning `ok ()` exactly when the `value`
field is accepted for writing. -/
def checkSysParamValue (name value : String) : Except SmartErr Unit :=
  let ival := strToInt64 value
  if name == "gap_between_blocks" then
    checkIntRange (decide (0 < ival) && decide (ival < 86400)) ival value
  else if intParams1000.contains name then
    checkIntRange (decide (0 < ival) && decide (ival < 1000)) ival value
  else if priceParams.contains name then
    checkIntRange (decide (0 ≤ ival)) ival value
  else if maxParams.contains name then
    checkIntRange (decide (0 < ival)) ival value
  else if name == "fuel_rate" || name == "commission_wallet" then
    match unmarshalStrListList value with
    | none => .error (.jsonError value)
    | some list => if list.any (fuelItemBad name) then .error .invalidValue else .ok ()
  else if name == "full_nodes" then
    match unmarshalFullNodesLen value with
    | none => .error .invalidValue
    | some n => if 0 < n then .ok () else .error .invalidValue
  else if goHasPre name "extend_cost_" then
    checkIntRange (decide (0 ≤ ival)) ival value
  else .ok ()

/-- The authorization step of `UpdateSysParam`: when the stored
parameter has a conditions expression, `sc.EvalIf` must succeed and
return true. -/
def sysParamCondCheck (env : Env) (cond : String) : Except SmartErr Unit :=
  if cond ≠ "" then
    match env.evalIf cond with
    | none => .error .evalError
    | some true => .ok ()
    | some false => .error .accessDenied
  else .ok ()

/-- The value step of `UpdateSysParam`: a non-empty `value` must pass
the `switch name` validation. -/
def sysParamValStep (name value : String) : Except SmartErr Unit :=
  if value ≠ "" then checkSysParamValue name value else .ok ()

/-- The conditions-compilation step of `UpdateSysParam`: a non-empty
`conditions` must compile (`CompileEval`). -/
def sysParamCondStep2 (env : Env) (conditions : String) : Except SmartErr Unit :=
  if conditions ≠ "" then
    if env.compileEvalOk conditions then .ok () else .error .evalError
  else .ok ()

/-- `UpdateSysParam` (`smart_p.go` lines 118-224): look up the
parameter, evaluate its conditions, validate the new value, compile the
new conditions, write through `selectiveLoggingAndUpd` with
`logRollback = !VDE && Rollback`, and reload the syspar cache
(`syspar.SysUpdate`), setting `sc.SysUpdate`. -/
def UpdateSysParam (env : Env) (st : St) (name value conditions : String) :
    Except SmartErr Int × St :=
  match st.sysParams.lookup name with
  | none => (.error (.notFound ("Parameter " ++ name ++ " has not been found")), st)
  | some par =>
    match sysParamCondCheck env par.conditions with
    | .error e => (.error e, st)
    | .ok _ =>
      match sysParamValStep name value with
      | .error e => (.error e, st)
      | .ok _ =>
        match sysParamCondStep2 env conditions with
        | .error e => (.error e, st)
        | .ok _ =>
          if value = "" ∧ conditions = "" then (.error .emptyObject, st)
          else
            let fields :=
              (if value ≠ "" then ["value"] else []) ++
                (if conditions ≠ "" then ["conditions"] else [])
            let vals :=
              (if value ≠ "" then [value] else []) ++
                (if conditions ≠ "" then [conditions] else [])
            let (_, st1) := selectiveLoggingAndUpd st fields vals "1_system_parameters"
              ["id"] [int64ToStr par.id] (!env.vde && st.rollback) false
            let newPar : SysParamRow :=
              { par with
                value := if value ≠ "" then value else par.value,
                conditions := if conditions ≠ "" then conditions else par.conditions }
            (.ok 0,
             { st1 with
               sysParams := updateLookup st1.sysParams name newPar,
               sysUpdate := true })

/-- `DBUpdateExt` (`smart_p.go` lines 226-243): resolve the table name,
check table access, refuse `_reports_` tables, check column access,
then update through `selectiveLoggingAndUpd` with
`logRollback = !VDE && Rollback`. -/
def DBUpdateExt (env : Env) (st : St) (tblname column value params : String)
    (vals : List String) : Except SmartErr Int × St :=
  let tbl := getDefTableName env.ecosystemID tblname
  if !(st.fullAccess || env.accessTableOk tbl "update") then (.error .accessDenied, st)
  else if containsSubstr tbl "_reports_" then
    (.error (.otherErr "Access denied to report table"), st)
  else
    let columns := splitComma params
    if !(st.fullAccess || env.accessColumnsOk tbl columns) then (.error .accessDenied, st)
    else
      let (r, st1) := selectiveLoggingAndUpd st columns vals tbl [column] [value]
        (!env.vde && st.rollback) true
      match r with
      | .ok (q, _) => (.ok q, st1)
      | .error e => (.error e, st1)

/-- `CreateLanguage` (`smart_p.go` lines 339-352): gate on
`@1NewLang`/`@1NewLangJoint`/`@1Import`, insert into `@N_languages`,
then refresh the language cache. -/
def CreateLanguage (env : Env) (st : St) (name trans : String) (appID : Int) :
    Except SmartErr Int × St :=
  if !(accessContracts env ["NewLang", "NewLangJoint", "Import"]) then
    (.error (.incorrectCallingContract
      "CreateLanguage can be only called from @1NewLang, @1NewLangJoint, @1Import"), st)
  else
    let idStr := int64ToStr env.ecosystemID
    let (r, st1) := DBInsert env st ("@" ++ idStr ++ "_languages") "name,res,app_id"
      [name, trans, int64ToStr appID]
    match r with
    | .error e => (.error e, st1)
    | .ok (_, id) => (.ok id, { st1 with events := st1.events ++ [.updateLang] })

/-- `CreateEcosystem` (`smart_p.go` lines 419-500): gate on
`@1NewEcosystem`, require the founder account, allocate the next
ecosystem id, execute the ecosystem schema, load its contracts, insert
the default page/menu/key rows with `Rollback` off and `FullAccess` on,
re-enable `Rollback`, register the ecosystem in `@1_ecosystems`, and in
non-VDE mode record a `NewEcosystem` rollback hint. -/
def CreateEcosystem (env : Env) (st : St) (wallet : Int) (name : String) :
    Except SmartErr Int × St :=
  if env.txContractName ≠ "@1NewEcosystem" then
    (.error (.incorrectCallingContract
      "CreateEcosystem can be only called from @1NewEcosystem"), st)
  else if (env.founderAccount.getD "") = "" then (.error .founderAccount, st)
  else
    let id := env.nextEcosystemID
    let idStr := int64ToStr id
    let st1 := { st with events := st.events ++ [Event.execSchema id, Event.loadContract idStr] }
    let st2 := { st1 with rollback := false, fullAccess := true }
    let (r1, st3) := DBInsert env st2 ("@" ++ idStr ++ "_pages") "id,name,value,menu,conditions"
      ["1", "default_page", SysParamString st2 "default_ecosystem_page", "default_menu",
       "ContractConditions(\"MainCondition\")"]
    match r1 with
    | .error e => (.error e, st3)
    | .ok _ =>
      let (r2, st4) := DBInsert env st3 ("@" ++ idStr ++ "_menu") "id,name,value,title,conditions"
        ["1", "default_menu", SysParamString st3 "default_ecosystem_menu", "default",
         "ContractConditions(\"MainCondition\")"]
      match r2 with
      | .error e => (.error e, st4)
      | .ok _ =>
        let pub := (env.keysPub wallet).getD ""
        let (r3, st5) := DBInsert env st4 ("@" ++ idStr ++ "_keys") "id,pub"
          [int64ToStr wallet, pub]
        match r3 with
        | .error e => (.error e, st5)
        | .ok _ =>
          let st6 := { st5 with fullAccess := false, rollback := true }
          let (r4, st7) := DBInsert env st6 "@1_ecosystems" "id,name" [idStr, name]
          match r4 with
          | .error e => (.error e, st7)
          | .ok _ =>
            if !env.vde then
              let (r5, st8) := SysRollback st7 "\x7b\"Type\": \"NewEcosystem\"\x7d"
              match r5 with
              | .error e => (.error e, st8)
              | .ok _ => (.ok id, st8)
            else (.ok id, st7)

/-- The JSON hint recorded by `Activate`/`Deactivate`:
`{"Type": "<kind>", "Id": "<tblid>", "State": "<state>"}`. -/
def activateHint (kind : String) (tblid state : Int) : String :=
  "\x7b\"Type\": \"" ++ kind ++ "\", \"Id\": \"" ++ int64ToStr tblid ++
    "\", \"State\": \"" ++ int64ToStr state ++ "\"\x7d"

/-- `Activate` (`smart_p.go` lines 530-544): gate on
`@1ActivateContract`/`@1DeactivateContract`, flip the contract's active
flag in the VM, and in non-VDE mode record the rollback hint. -/
def Activate (env : Env) (st : St) (tblid state : Int) : Except SmartErr Unit × St :=
  if !(accessContracts env ["ActivateContract", "DeactivateContract"]) then
    (.error (.incorrectCallingContract
      "ActivateContract can be only called from @1ActivateContract or @1DeactivateContract"),
     st)
  else
    let st1 := { st with events := st.events ++ [.activateContract tblid state true] }
    if !env.vde then
      let (r, st2) := SysRollback st1 (activateHint "ActivateContract" tblid state)
      match r with
      | .error e => (.error e, st2)
      | .ok _ => (.ok (), st2)
    else (.ok (), st1)

/-- `Deactivate` (`smart_p.go` lines 546-560): the mirror image of
`Activate`. -/
def Deactivate (env : Env) (st : St) (tblid state : Int) : Except SmartErr Unit × St :=
  if !(accessContracts env ["ActivateContract", "DeactivateContract"]) then
    (.error (.incorrectCallingContract
      "DeactivateContract can be only called from @1ActivateContract or @1DeactivateContract"),
     st)
  else
    let st1 := { st with events := st.events ++ [.activateContract tblid state false] }
    if !env.vde then
      let (r, st2) := SysRollback st1 (activateHint "DeactivateContract" tblid state)
      match r with
      | .error e => (.error e, st2)
      | .ok _ => (.ok (), st2)
    else (.ok (), st1)

/-- `SignRes`, one co-signer parameter of the persisted sign-spec
(`smart_p.go` lines 93-97; json tags `name`, `text`). -/
structure SignRes where
  param : String
  text : String
deriving Repr, DecidableEq

/-- `TxSignJSON`, the persisted sign-spec (`smart_p.go` lines 99-105;
json tags `forsign`, `field`, `title`, `params`). -/
structure TxSignJSON where
  forsign : String
  fieldTag : String
  title : String
  params : List SignRes
deriving Repr, DecidableEq

/-- Object field by key, with JSON `null` for a missing key (Go leaves
the target's zero value either way). -/
def jFieldD (fs : List (String × JVal)) (k : String) : JVal :=
  (fs.lookup k).getD .jnull

/-- Go unmarshalling of a JSON value into a `SignRes` target. -/
def jAsSignRes : JVal → Option SignRes
  | .jnull => some ⟨"", ""⟩
  | .jobj fs => do
    let p ← jAsGoString (jFieldD fs "name")
    let t ← jAsGoString (jFieldD fs "text")
    some ⟨p, t⟩
  | _ => none

/-- Go unmarshalling of a JSON value into a `[]SignRes` target. -/
def jAsSignResList : JVal → Option (List SignRes)
  | .jnull => some []
  | .jarr xs => xs.mapM jAsSignRes
  | _ => none

/-- Go `json.Unmarshal([]byte(value), &sign)` for `sign : TxSignJSON`. -/
def unmarshalTxSignJSON (value : String) : Option TxSignJSON :=
  match jsonParse value with
  | some .jnull => some ⟨"", "", "", []⟩
  | some (.jobj fs) => do
    let f ← jAsGoString (jFieldD fs "forsign")
    let fd ← jAsGoString (jFieldD fs "field")
    let t ← jAsGoString (jFieldD fs "title")
    let ps ← jAsSignResList (jFieldD fs "params")
    some ⟨f, fd, t, ps⟩
  | some _ => none
  | none => none

/-- Modelled from the spec: `script.ParseContract` is not under `src/`;
a contract reference `@N<name>` splits into the ecosystem number and
the name, and anything else yields `(0, "")` (the Go regex leaves the
zero values when it does not match). -/
def parseContractName (s : String) : Int × String :=
  match s.toList with
  | '@' :: rest =>
    let ds := rest.takeWhile Char.isDigit
    let nm := rest.dropWhile Char.isDigit
    match parseDigits ds, nm with
    | some n, _ :: _ => ((n : Int), String.mk nm)
    | _, _ => (0, "")
  | _ => (0, "")

/-- `CheckSignature` (`smart_p.go` lines 562-606).  The entries the Go
code reads from the `(*i)` map (`Signature`, `key_id`, `time` and the
sign-spec parameter values) are passed explicitly; the
`N_signatures` row is read through `env.signaturesValue`, which yields
the empty string both for an absent row and an empty value, as
`model.Single` does. -/
def CheckSignature (env : Env) (st : St) (name sigHex : String) (keyID timeV : Int)
    (paramVal : String → Option String) : Except SmartErr Unit × St :=
  let pc := parseContractName name
  let pref := int64ToStr pc.1
  let value := (env.signaturesValue pref pc.2).getD ""
  if value = "" then (.ok (), st)
  else
    let st1 := { st with events := st.events ++ [Event.decodeSig sigHex] }
    match hexDecode sigHex with
    | none => (.error (.otherErr "wrong signature"), st1)
    | some hexsign =>
      if hexsign.length = 0 then (.error (.otherErr "wrong signature"), st1)
      else
        match unmarshalTxSignJSON value with
        | none => (.error (.jsonError value), st1)
        | some sign =>
          let forsign0 := toString (toUInt64Nat timeV) ++ "," ++ toString (toUInt64Nat keyID)
          let forsign := sign.params.foldl
            (fun acc isign => acc ++ "," ++ ((paramVal isign.param).getD "")) forsign0
          let st2 := { st1 with events := st1.events ++ [Event.checkSign forsign] }
          match env.checkSignOracle forsign hexsign with
          | none => (.error (.otherErr "checksign error"), st2)
          | some true => (.ok (), st2)
          | some false => (.error (.otherErr ("incorrect signature " ++ forsign)), st2)

/-- `PubToID` (`smart_p.go` lines 318-326).  `crypto.Address` belongs to
the crypto layer outside the SCE (spec §6) and is passed as the
deterministic function `addr`. -/
def PubToID (addr : List Nat → Int) (hexkey : String) : Int :=
  match hexDecode hexkey with
  | none => 0
  | some pubkey => addr pubkey

/-- Go slice expression `s[a:b]`: defined when `0 ≤ a ≤ b ≤ len(s)`;
`none` models the run-time bounds panic. -/
def goSlice (s : List Char) (a b : Int) : Option (List Char) :=
  if 0 ≤ a ∧ a ≤ b ∧ b ≤ (s.length : Int) then some ((s.take b.toNat).drop a.toNat)
  else none

/-- `Substr` (`smart_p.go` lines 518-528) over Go `int64` arguments:
the sum `off+slen` wraps around as Go addition does, and `none` models
a slice-bounds panic. -/
def Substr (s : List Char) (off slen : Int) : Option (List Char) :=
  let ilen : Int := s.length
  if off < 0 || slen < 0 || off > ilen then some []
  else if wrap64 (off + slen) > ilen then goSlice s off ilen
  else goSlice s off (wrap64 (off + slen))

/-- The `extendCostSysParams` table (`smart_p.go` lines 50-82). -/
def extendCostSysParams : List (String × String) :=
  [("AddressToId", "extend_cost_address_to_id"),
   ("IdToAddress", "extend_cost_id_to_address"),
   ("NewState", "extend_cost_new_state"),
   ("Sha256", "extend_cost_sha256"),
   ("PubToID", "extend_cost_pub_to_id"),
   ("EcosysParam", "extend_cost_ecosys_param"),
   ("SysParamString", "extend_cost_sys_param_string"),
   ("SysParamInt", "extend_cost_sys_param_int"),
   ("SysFuel", "extend_cost_sys_fuel"),
   ("ValidateCondition", "extend_cost_validate_condition"),
   ("EvalCondition", "extend_cost_eval_condition"),
   ("HasPrefix", "extend_cost_has_prefix"),
   ("Contains", "extend_cost_contains"),
   ("Replace", "extend_cost_replace"),
   ("Join", "extend_cost_join"),
   ("Size", "extend_cost_size"),
   ("Substr", "extend_cost_substr"),
   ("Eval", "extend_cost_eval"),
   ("Len", "extend_cost_len"),
   ("Activate", "extend_cost_activate"),
   ("Deactivate", "extend_cost_deactivate"),
   ("CreateEcosystem", "extend_cost_create_ecosystem"),
   ("TableConditions", "extend_cost_table_conditions"),
   ("CreateTable", "extend_cost_create_table"),
   ("PermTable", "extend_cost_perm_table"),
   ("ColumnCondition", "extend_cost_column_condition"),
   ("CreateColumn", "extend_cost_create_column"),
   ("PermColumn", "extend_cost_perm_column"),
   ("JSONToMap", "extend_cost_json_to_map"),
   ("GetContractByName", "extend_cost_contract_by_name"),
   ("GetContractById", "extend_cost_contract_by_id")]

/-- `syspar.HasSys` over a modelled syspar cache (parameter name to
integer value). -/
def hasSys (sp : List (String × Int)) (key : String) : Bool := (sp.lookup key).isSome

/-- `syspar.SysInt64` over the same cache (0 when absent). -/
def sysInt64 (sp : List (String × Int)) (key : String) : Int := (sp.lookup key).getD 0

/-- `getCostP` (`smart_p.go` lines 111-116). -/
def getCostP (sp : List (String × Int)) (name : String) : Int :=
  match extendCostSysParams.lookup name with
  | some key => if hasSys sp key then sysInt64 sp key else -1
  | none => -1

/-! ## Concrete fixtures used by the witnesses -/

/-- A benign environment for concrete instantiations. -/
def baseEnv : Env where
  txContractName := "@1MainCondition"
  ecosystemID := 1
  vde := false
  evalIf := fun _ => some true
  compileEvalOk := fun _ => true
  accessTableOk := fun _ _ => true
  accessColumnsOk := fun _ _ => true
  signaturesValue := fun _ _ => none
  founderAccount := some "42"
  keysPub := fun _ => some "ab"
  nextEcosystemID := 5
  checkSignOracle := fun _ _ => some true

/-- A pre-state holding the constrained system parameters with empty
authorization conditions. -/
def baseSt : St where
  rollback := true
  fullAccess := false
  sysUpdate := false
  sysParams :=
    [("gap_between_blocks", ⟨1, "3", ""⟩),
     ("fuel_rate", ⟨2, "[[\"1\",\"100\"]]", ""⟩),
     ("commission_wallet", ⟨3, "[[\"1\",\"100\"]]", ""⟩)]
  writes := []
  events := []

/-- Per-event journal discipline for operations that do not touch the
`Rollback` flag: a `selectiveLoggingAndUpd` request must carry
`logRollback = !VDE && Rollback`, and a `SysRollback` request may occur
only outside VDE mode.  Other events are not journal requests. -/
def journalOK (vde rb : Bool) : Event → Bool
  | .selUpd _ lr => lr == (!vde && rb)
  | .sysRollback _ => !vde
  | _ => true

/-- Journal discipline for `CreateEcosystem`, which toggles `Rollback`
internally: a `selectiveLoggingAndUpd` request may carry
`logRollback = true` only outside VDE mode, and a `SysRollback`
request may occur only outside VDE mode. -/
def journalNoVde (vde : Bool) : Event → Bool
  | .selUpd _ lr => !(vde && lr)
  | .sysRollback _ => !vde
  | _ => true

/-- A concrete address function for instantiating `PubToID`. -/
def addrZero : List Nat → Int := fun _ => 0

/-- C1: For every transaction envelope, `ForSign` returns exactly the
comma-join of RequestID, Type, Time, KeyID, EcosystemID,
TokenEcosystem, MaxSum, PayOver and SignedBy, in that order, with no
other separators or fields. -/
theorem forSign_is_comma_join (s : GoTx.SmartContract) :
    GoTx.ForSign s = GoTx.ForSignSpec s := by
  simp [GoTx.ForSign, GoTx.ForSignSpec, String.intercalate, String.intercalate.go,
    String.append_assoc]

/-- The whitelist test fails when the caller is not among the listed
`@1`-prefixed contract names. -/
theorem accessContracts_eq_false (env : Env) (names : List String)
    (h : env.txContractName ∉ names.map (fun n => "@1" ++ n)) :
    accessContracts env names = false := by
  unfold accessContracts
  rw [List.any_eq_false]
  intro n hn
  intro he
  exact h (by rw [eq_of_beq he]; exact List.mem_map_of_mem _ hn)

/-- C2: each admin-flavored host function with a caller whitelist
(`CreateEcosystem` only from `@1NewEcosystem`; `CreateLanguage` only
from `@1NewLang`, `@1NewLangJoint`, `@1Import`; `Activate`/`Deactivate`
only from `@1ActivateContract` or `@1DeactivateContract`), when called
while the transaction's contract is not in the whitelist, returns an
`IncorrectCallingContract` error and leaves the state untouched. -/
theorem admin_gate_whitelist (env : Env) (st : St) (wallet : Int) (ename lname trans : String)
    (appID tblid stv : Int) :
    (env.txContractName ≠ "@1NewEcosystem" →
      CreateEcosystem env st wallet ename =
        (.error (.incorrectCallingContract
          "CreateEcosystem can be only called from @1NewEcosystem"), st)) ∧
    (env.txContractName ∉ (["@1NewLang", "@1NewLangJoint", "@1Import"] : List String) →
      CreateLanguage env st lname trans appID =
        (.error (.incorrectCallingContract
          "CreateLanguage can be only called from @1NewLang, @1NewLangJoint, @1Import"), st)) ∧
    (env.txContractName ∉ (["@1ActivateContract", "@1DeactivateContract"] : List String) →
      Activate env st tblid stv =
        (.error (.incorrectCallingContract
          "ActivateContract can be only called from @1ActivateContract or @1DeactivateContract"),
         st) ∧
      Deactivate env st tblid stv =
        (.error (.incorrectCallingContract
          "DeactivateContract can be only called from @1ActivateContract or @1DeactivateContract"),
         st)) := by
  refine ⟨fun h => ?_, fun h => ?_, fun h => ?_⟩
  · unfold CreateEcosystem
    rw [if_pos h]
  · have hf : accessContracts env ["NewLang", "NewLangJoint", "Import"] = false := by
      apply accessContracts_eq_false
      simpa using h
    unfold CreateLanguage
    rw [hf]
    rfl
  · have hf : accessContracts env ["ActivateContract", "DeactivateContract"] = false := by
      apply accessContracts_eq_false
      simpa using h
    constructor
    · unfold Activate
      rw [hf]
      rfl
    · unfold Deactivate
      rw [hf]
      rfl

/-- Witness for C2 at the caller `@1TransferMoney` (the spec's S6
scenario). -/
theorem admin_gate_whitelist_witness :
    CreateEcosystem { baseEnv with txContractName := "@1TransferMoney" } baseSt 7 "eco" =
      (.error (.incorrectCallingContract
        "CreateEcosystem can be only called from @1NewEcosystem"), baseSt) ∧
    CreateLanguage { baseEnv with txContractName := "@1TransferMoney" } baseSt "n" "t" 1 =
      (.error (.incorrectCallingContract
        "CreateLanguage can be only called from @1NewLang, @1NewLangJoint, @1Import"), baseSt) ∧
    Activate { baseEnv with txContractName := "@1TransferMoney" } baseSt 2 1 =
      (.error (.incorrectCallingContract
        "ActivateContract can be only called from @1ActivateContract or @1DeactivateContract"),
       baseSt) ∧
    Deactivate { baseEnv with txContractName := "@1TransferMoney" } baseSt 2 1 =
      (.error (.incorrectCallingContract
        "DeactivateContract can be only called from @1ActivateContract or @1DeactivateContract"),
       baseSt) := by
  have h := admin_gate_whitelist { baseEnv with txContractName := "@1TransferMoney" } baseSt
    7 "eco" "n" "t" 1 2 1
  exact ⟨h.1 (by decide), h.2.1 (by decide), (h.2.2 (by decide)).1, (h.2.2 (by decide)).2⟩

/-- The authorization step of `UpdateSysParam` passes when the stored
conditions are empty or evaluate to true. -/
theorem sysParamCondCheck_ok (env : Env) (cond : String)
    (h : cond = "" ∨ env.evalIf cond = some true) :
    sysParamCondCheck env cond = .ok () := by
  unfold sysParamCondCheck
  rcases h with h | h
  · simp [h]
  · by_cases hce : cond = ""
    · simp [hce]
    · simp [hce, h]

/-- The conditions-compilation step of `UpdateSysParam` passes when the
new conditions are empty or compile. -/
theorem sysParamCondStep2_ok (env : Env) (conditions : String)
    (h : conditions = "" ∨ env.compileEvalOk conditions = true) :
    sysParamCondStep2 env conditions = .ok () := by
  unfold sysParamCondStep2
  rcases h with h | h
  · simp [h]
  · by_cases hce : conditions = ""
    · simp [hce]
    · simp [hce, h]

/-- C3: writing `gap_between_blocks` with a non-empty value whose
integer interpretation is not strictly between 0 and 86400 returns
`InvalidValue` and leaves the state — in particular the stored
parameter — unchanged; the validation happens before any write. -/
theorem updateSysParam_gap_out_of_range (env : Env) (st : St) (par : SysParamRow)
    (value conditions : String)
    (hpar : st.sysParams.lookup "gap_between_blocks" = some par)
    (hcond : par.conditions = "" ∨ env.evalIf par.conditions = some true)
    (hval : value ≠ "")
    (hrange : ¬(0 < strToInt64 value ∧ strToInt64 value < 86400)) :
    UpdateSysParam env st "gap_between_blocks" value conditions =
      (.error .invalidValue, st) := by
  have hb : (decide (0 < strToInt64 value) && decide (strToInt64 value < 86400)) = false := by
    rcases Decidable.em (0 < strToInt64 value) with h1 | h1
    · rcases Decidable.em (strToInt64 value < 86400) with h2 | h2
      · exact absurd ⟨h1, h2⟩ hrange
      · simp [h2]
    · simp [h1]
  have hchk : sysParamValStep "gap_between_blocks" value = .error .invalidValue := by
    unfold sysParamValStep checkSysParamValue checkIntRange
    simp [hval, hb]
  unfold UpdateSysParam
  rw [hpar]
  dsimp only
  rw [sysParamCondCheck_ok env par.conditions hcond, hchk]

/-- Witness for C3: the spec's S5 scenario,
`UpdateSysParam("gap_between_blocks", "0", "")`. -/
theorem updateSysParam_gap_out_of_range_witness :
    UpdateSysParam baseEnv baseSt "gap_between_blocks" "0" "" =
      (.error .invalidValue, baseSt) :=
  updateSysParam_gap_out_of_range baseEnv baseSt ⟨1, "3", ""⟩ "0" "" rfl (Or.inl rfl)
    (by decide) (by decide)

/-- C4 counterexample: the value `[["1","0"]]` is a JSON array of
`[ecosystem_id, rate]` pairs whose first element (`1`) is strictly
positive, so by the claim `fuel_rate` should accept it; the code
rejects it with `InvalidValue`, because it also requires the second
element to be strictly positive. -/
theorem fuelRate_positive_first_not_sufficient :
    unmarshalStrListList "[[\"1\",\"0\"]]" = some [["1", "0"]] ∧
    0 < strToInt64 "1" ∧
    UpdateSysParam baseEnv baseSt "fuel_rate" "[[\"1\",\"0\"]]" "" =
      (.error .invalidValue, baseSt) := by
  refine ⟨rfl, by decide, rfl⟩

/-- C4 (amended): for `fuel_rate` / `commission_wallet`, a non-empty
value is accepted exactly when it unmarshals as a JSON array of string
pairs whose first element's integer value is strictly positive and
whose second element's integer value is strictly positive for
`fuel_rate`, respectively non-zero for `commission_wallet`
(`fuelItemBad` is the code's per-item rejection test); any other value
is rejected with an error — a JSON error when unmarshalling fails,
`InvalidValue` when some pair fails the test — leaving the state
unchanged. -/
theorem fuelRate_commissionWallet_domain (env : Env) (st : St) (par : SysParamRow)
    (name value conditions : String)
    (hname : name = "fuel_rate" ∨ name = "commission_wallet")
    (hpar : st.sysParams.lookup name = some par)
    (hcond : par.conditions = "" ∨ env.evalIf par.conditions = some true)
    (hval : value ≠ "") :
    (unmarshalStrListList value = none →
      UpdateSysParam env st name value conditions = (.error (.jsonError value), st)) ∧
    (∀ l, unmarshalStrListList value = some l → l.any (fuelItemBad name) = true →
      UpdateSysParam env st name value conditions = (.error .invalidValue, st)) ∧
    (∀ l, unmarshalStrListList value = some l → l.any (fuelItemBad name) = false →
      (conditions = "" ∨ env.compileEvalOk conditions = true) →
      ∃ st', UpdateSysParam env st name value conditions = (.ok 0, st')) := by
  have hbranch : checkSysParamValue name value =
      (match unmarshalStrListList value with
       | none => .error (.jsonError value)
       | some list =>
         if list.any (fuelItemBad name) then .error .invalidValue else .ok ()) := by
    rcases hname with h | h <;> subst h <;> rfl
  refine ⟨fun hnone => ?_, fun l hsome hbad => ?_, fun l hsome hgood hcond2 => ?_⟩
  · have hchk : sysParamValStep name value = .error (.jsonError value) := by
      unfold sysParamValStep
      rw [if_pos hval, hbranch, hnone]
    unfold UpdateSysParam
    rw [hpar]
    dsimp only
    rw [sysParamCondCheck_ok env par.conditions hcond, hchk]
  · have hchk : sysParamValStep name value = .error .invalidValue := by
      unfold sysParamValStep
      rw [if_pos hval, hbranch, hsome]
      simp [hbad]
    unfold UpdateSysParam
    rw [hpar]
    dsimp only
    rw [sysParamCondCheck_ok env par.conditions hcond, hchk]
  · have hchk : sysParamValStep name value = .ok () := by
      unfold sysParamValStep
      rw [if_pos hval, hbranch, hsome]
      simp [hgood]
    have hnv : ¬(value = "" ∧ conditions = "") := fun hc => hval hc.1
    unfold UpdateSysParam
    rw [hpar]
    dsimp only
    rw [sysParamCondCheck_ok env par.conditions hcond, hchk,
      sysParamCondStep2_ok env conditions hcond2, if_neg hnv]
    exact ⟨_, rfl⟩

/-- Witness for the amended C4: `fuel_rate` accepts `[["3","2"]]`. -/
theorem fuelRate_commissionWallet_domain_witness :
    ∃ st', UpdateSysParam baseEnv baseSt "fuel_rate" "[[\"3\",\"2\"]]" "" = (.ok 0, st') :=
  (fuelRate_commissionWallet_domain baseEnv baseSt ⟨2, "[[\"1\",\"100\"]]", ""⟩ "fuel_rate"
      "[[\"3\",\"2\"]]" "" (Or.inl rfl) rfl (Or.inl rfl) (by decide)).2.2
    [["3", "2"]] rfl (by decide) (Or.inl rfl)

/-- Every journal request issued by `UpdateSysParam` honours
`logRollback = !VDE && Rollback`. -/
theorem updateSysParam_journal (env : Env) (st : St) (n v c : String)
    (hev : st.events = []) :
    (UpdateSysParam env st n v c).2.events.all (journalOK env.vde st.rollback) = true := by
  unfold UpdateSysParam
  split
  · simp [hev]
  · split
    · simp [hev]
    · split
      · simp [hev]
      · split
        · simp [hev]
        · split
          · simp [hev]
          · simp [selectiveLoggingAndUpd, hev, journalOK]

/-- Every journal request issued by `DBUpdateExt` honours
`logRollback = !VDE && Rollback`. -/
theorem dbUpdateExt_journal (env : Env) (st : St) (tbl col val ps : String)
    (vals : List String) (hev : st.events = []) :
    (DBUpdateExt env st tbl col val ps vals).2.events.all
      (journalOK env.vde st.rollback) = true := by
  unfold DBUpdateExt
  dsimp only
  split
  · simp [hev]
  · split
    · simp [hev]
    · split
      · simp [hev]
      · simp [selectiveLoggingAndUpd, hev, journalOK]

/-- `Activate` requests a `SysRollback` journal entry only outside VDE
mode and issues no row writes. -/
theorem activate_journal (env : Env) (st : St) (tblid stv : Int)
    (hev : st.events = []) :
    (Activate env st tblid stv).2.events.all (journalOK env.vde st.rollback) = true := by
  unfold Activate
  split
  · simp [hev]
  · split
    · simp_all [SysRollback, journalOK]
    · simp_all [journalOK]

/-- `Deactivate` requests a `SysRollback` journal entry only outside
VDE mode and issues no row writes. -/
theorem deactivate_journal (env : Env) (st : St) (tblid stv : Int)
    (hev : st.events = []) :
    (Deactivate env st tblid stv).2.events.all (journalOK env.vde st.rollback) = true := by
  unfold Deactivate
  split
  · simp [hev]
  · split
    · simp_all [SysRollback, journalOK]
    · simp_all [journalOK]

/-- `DBInsert` preserves the `journalNoVde` trace discipline: the one
`selUpd` request it may add carries `logRollback = !VDE && Rollback`,
which is never `true` in VDE mode. -/
theorem dbInsert_good (env : Env) (st : St) (t p : String) (v : List String)
    (h : st.events.all (journalNoVde env.vde) = true) :
    (DBInsert env st t p v).2.events.all (journalNoVde env.vde) = true := by
  unfold DBInsert
  dsimp only [selectiveLoggingAndUpd]
  split
  · exact h
  · have hsel : journalNoVde env.vde
        (.selUpd (getDefTableName env.ecosystemID t) (!env.vde && st.rollback)) = true := by
      cases env.vde <;> simp [journalNoVde]
    simp [h, hsel]

/-- In VDE mode `CreateEcosystem` requests neither row journalling nor
`SysRollback`; outside VDE mode its `logRollback` flags follow the
`Rollback` flag it sets at each call site. -/
theorem createEcosystem_journal (env : Env) (st : St) (wallet : Int) (ename : String)
    (hev : st.events = []) :
    (CreateEcosystem env st wallet ename).2.events.all (journalNoVde env.vde) = true := by
  unfold CreateEcosystem
  split
  · simp [hev]
  · split
    · simp [hev]
    · dsimp only [SysRollback]
      split
      · apply dbInsert_good
        simp [hev, journalNoVde]
      · split
        · apply dbInsert_good
          apply dbInsert_good
          simp [hev, journalNoVde]
        · split
          · apply dbInsert_good
            apply dbInsert_good
            apply dbInsert_good
            simp [hev, journalNoVde]
          · split
            · apply dbInsert_good
              dsimp only
              apply dbInsert_good
              apply dbInsert_good
              apply dbInsert_good
              simp [hev, journalNoVde]
            · split
              · dsimp only
                rw [List.all_append, Bool.and_eq_true]
                constructor
                · apply dbInsert_good
                  dsimp only
                  apply dbInsert_good
                  apply dbInsert_good
                  apply dbInsert_good
                  simp [hev, journalNoVde]
                · simp only [List.all_cons, List.all_nil, Bool.and_true, journalNoVde]
                  assumption
              · apply dbInsert_good
                dsimp only
                apply dbInsert_good
                apply dbInsert_good
                apply dbInsert_good
                simp [hev, journalNoVde]

/-- C5: with `st.events = []` isolating this call's trace, none of the
five state-writing host operations requests journalling in VDE mode:
every `selectiveLoggingAndUpd` request carries
`logRollback = !VDE && Rollback` (for `CreateEcosystem`, the `Rollback`
value it sets at the call site — so never `true` under VDE), and
`SysRollback` is requested only when `VDE = false`. -/
theorem vde_no_journal (env : Env) (st : St) (n v c tbl col val ps : String)
    (vals : List String) (tblid stv wallet : Int) (ename : String)
    (hev : st.events = []) :
    (UpdateSysParam env st n v c).2.events.all (journalOK env.vde st.rollback) = true ∧
    (DBUpdateExt env st tbl col val ps vals).2.events.all
      (journalOK env.vde st.rollback) = true ∧
    (Activate env st tblid stv).2.events.all (journalOK env.vde st.rollback) = true ∧
    (Deactivate env st tblid stv).2.events.all (journalOK env.vde st.rollback) = true ∧
    (CreateEcosystem env st wallet ename).2.events.all (journalNoVde env.vde) = true :=
  ⟨updateSysParam_journal env st n v c hev,
   dbUpdateExt_journal env st tbl col val ps vals hev,
   activate_journal env st tblid stv hev,
   deactivate_journal env st tblid stv hev,
   createEcosystem_journal env st wallet ename hev⟩

/-- Witness for C5 in VDE mode with whitelisted callers. -/
theorem vde_no_journal_witness :
    (UpdateSysParam { baseEnv with txContractName := "@1NewEcosystem", vde := true } baseSt
      "gap_between_blocks" "60" "").2.events.all (journalOK true true) = true ∧
    (DBUpdateExt { baseEnv with txContractName := "@1NewEcosystem", vde := true } baseSt
      "data" "id" "1" "name" ["x"]).2.events.all (journalOK true true) = true ∧
    (Activate { baseEnv with txContractName := "@1NewEcosystem", vde := true } baseSt
      2 1).2.events.all (journalOK true true) = true ∧
    (Deactivate { baseEnv with txContractName := "@1NewEcosystem", vde := true } baseSt
      2 1).2.events.all (journalOK true true) = true ∧
    (CreateEcosystem { baseEnv with txContractName := "@1NewEcosystem", vde := true } baseSt
      7 "eco").2.events.all (journalNoVde true) = true :=
  vde_no_journal { baseEnv with txContractName := "@1NewEcosystem", vde := true } baseSt
    "gap_between_blocks" "60" "" "data" "id" "1" "name" ["x"] 2 1 7 "eco" rfl

/-- C6 counterexample: the host-function name `GetContractByName` is
costed through the table entry `extend_cost_contract_by_name`, not
through the literal name `extend_cost_GetContractByName`; with a syspar
state that holds the literal-name parameter (value 7), `getCostP`
ignores it and returns −1, refuting the claim at this input. -/
theorem getCostP_literal_name_refuted :
    hasSys [("extend_cost_GetContractByName", 7)]
      ("extend_cost_" ++ "GetContractByName") = true ∧
    sysInt64 [("extend_cost_GetContractByName", 7)]
      ("extend_cost_" ++ "GetContractByName") = 7 ∧
    getCostP [("extend_cost_GetContractByName", 7)] "GetContractByName" ≠
      sysInt64 [("extend_cost_GetContractByName", 7)]
        ("extend_cost_" ++ "GetContractByName") := by
  refine ⟨rfl, rfl, by decide⟩

/-- C6 (amended): `getCostP(n)` returns the value of the system
parameter named by the fixed table `extendCostSysParams` at `n` — the
snake-cased key, e.g. `extend_cost_sha256` for `Sha256` and
`extend_cost_contract_by_name` for `GetContractByName` — when `n` is
one of the 31 mapped names and that parameter exists, and returns −1
otherwise (for an unmapped name, or when the parameter is absent). -/
theorem getCostP_mapped_lookup (sp : List (String × Int)) (name key : String) :
    (extendCostSysParams.lookup name = some key →
      (hasSys sp key = true → getCostP sp name = sysInt64 sp key) ∧
      (hasSys sp key = false → getCostP sp name = -1)) ∧
    (extendCostSysParams.lookup name = none → getCostP sp name = -1) := by
  constructor
  · intro h
    constructor <;> intro h2 <;> simp [getCostP, h, h2]
  · intro h
    simp [getCostP, h]

/-- Witness for the amended C6: a mapped name with its parameter
present, and an unmapped name. -/
theorem getCostP_mapped_lookup_witness :
    getCostP [("extend_cost_sha256", 5)] "Sha256" = 5 ∧
    getCostP [] "DBInsert" = -1 := by
  constructor
  · exact (((getCostP_mapped_lookup [("extend_cost_sha256", 5)] "Sha256"
      "extend_cost_sha256").1 rfl).1 rfl).trans rfl
  · exact (getCostP_mapped_lookup [] "DBInsert" "").2 rfl

/-- C7 (code bug): `Substr("0123456789", 1, 9223372036854775807)`
panics.  The guards only reject a negative `off`/`slen` or `off` past
the end; with `slen = 2^63 − 1` the Go sum `off+slen` wraps to
`−2^63`, so the `off+slen > len` clamp is not taken and
`s[off : off+slen]` raises a slice-bounds panic (`none`), while the
spec promises a non-panicking clamp — which at these inputs would be
the length-`min(slen, len−off) = 9` substring shown. -/
theorem substr_overflow_escapes_clamp :
    Substr ("0123456789".toList) 1 (2 ^ 63 - 1) = none ∧
    Substr ("0123456789".toList) 1 9 = some ("123456789".toList) := by
  refine ⟨rfl, rfl⟩

/-- C8: when the resolved table name contains `_reports_`, `DBUpdateExt`
fails before reaching `selectiveLoggingAndUpd` — the state (writes and
trace included) is returned untouched — and whenever the preceding
table-ACL check grants access, the error is precisely
`Access denied to report table`. -/
theorem dbUpdateExt_reports_denied (env : Env) (st : St)
    (tblname column value params : String) (vals : List String)
    (hrep : containsSubstr (getDefTableName env.ecosystemID tblname) "_reports_" = true) :
    ∃ e, DBUpdateExt env st tblname column value params vals = (.error e, st) ∧
      (st.fullAccess = true ∨
        env.accessTableOk (getDefTableName env.ecosystemID tblname) "update" = true →
        e = .otherErr "Access denied to report table") := by
  unfold DBUpdateExt
  dsimp only
  split
  · exact ⟨.accessDenied, rfl, by
      intro h
      rcases h with h | h <;> simp_all⟩
  · exact ⟨.otherErr "Access denied to report table", rfl, fun _ => rfl⟩

/-- Witness for C8 on the resolved global table `1_reports_data`. -/
theorem dbUpdateExt_reports_denied_witness :
    DBUpdateExt baseEnv baseSt "@1_reports_data" "id" "1" "name" ["x"] =
      (.error (.otherErr "Access denied to report table"), baseSt) := by
  obtain ⟨e, he, hmsg⟩ := dbUpdateExt_reports_denied baseEnv baseSt "@1_reports_data"
    "id" "1" "name" ["x"] rfl
  rw [hmsg (Or.inr rfl)] at he
  exact he

/-- C9: when the ecosystem's `signatures` row for the contract is
absent or holds an empty value, `CheckSignature` returns success
immediately: the state is untouched, so neither the `decodeSig` nor the
`checkSign` event is emitted — the `Signature` field is never decoded
and no co-signer verification runs. -/
theorem checkSignature_no_spec_ok (env : Env) (st : St) (name sigHex : String)
    (keyID timeV : Int) (paramVal : String → Option String)
    (hval : (env.signaturesValue (int64ToStr (parseContractName name).1)
      (parseContractName name).2).getD "" = "") :
    CheckSignature env st name sigHex keyID timeV paramVal = (.ok (), st) := by
  unfold CheckSignature
  dsimp only
  rw [if_pos hval]

/-- Witness for C9: an absent row, together with a `Signature` value
that is not even valid hex — decoding it would fail, yet the call
succeeds because it never decodes. -/
theorem checkSignature_no_spec_ok_witness :
    CheckSignature baseEnv baseSt "@1Conditions" "zz" 5 7 (fun _ => none) =
      (.ok (), baseSt) :=
  checkSignature_no_spec_ok baseEnv baseSt "@1Conditions" "zz" 5 7 (fun _ => none) rfl

/-- C10: for any address function and any input that is not valid
hexadecimal, `PubToID` returns 0 — there is no error return or panic —
and its result is indistinguishable from that on a valid key whose
address is 0. -/
theorem pubToID_invalid_hex_zero (addr : List Nat → Int) (hexkey : String)
    (hbad : hexDecode hexkey = none) :
    PubToID addr hexkey = 0 ∧
    ∀ hexkey2 pk, hexDecode hexkey2 = some pk → addr pk = 0 →
      PubToID addr hexkey = PubToID addr hexkey2 := by
  constructor
  · unfold PubToID
    rw [hbad]
  · intro hexkey2 pk hgood haddr
    unfold PubToID
    rw [hbad, hgood]
    dsimp only
    exact haddr.symm

/-- Witness for C10: `"zz"` is invalid hex, `"ab"` is a valid key whose
modelled address is 0; the two calls agree. -/
theorem pubToID_invalid_hex_zero_witness :
    PubToID addrZero "zz" = 0 ∧ PubToID addrZero "zz" = PubToID addrZero "ab" := by
  have h := pubToID_invalid_hex_zero addrZero "zz" rfl
  exact ⟨h.1, h.2 "ab" [171] rfl rfl⟩
